import Mathlib

/-!
Shallow embedding of the `myrandombot` reply-engine core
(`config.py`, `src/core/mood.py`, `src/core/chain.py`, `src/memory.py`,
`src/analytics/__init__.py`, `src/graph.py`, `src/bot.py`) and proofs of
the specification claims about it.

Numeric values that are Python floats in the source are modelled as
rationals (`ℚ`); Python strings are Lean `String`s; Python dicts that are
used as ordered key/value tables are modelled as association lists in
declaration order (CPython dicts preserve insertion order, which the code
relies on for tie-breaking).
-/

/-- Substring test on character lists: `charsInfix n h` is true iff `n`
occurs contiguously inside `h`.  Models Python's `needle in haystack`. -/
def charsInfix (n : List Char) : List Char → Bool
  | [] => n.isEmpty
  | c :: t => n.isPrefixOf (c :: t) || charsInfix n t

/-- Python `needle in haystack` on strings. -/
def occursIn (needle haystack : String) : Bool :=
  charsInfix needle.toList haystack.toList

/-- Python `haystack.startswith(needle)`. -/
def pyStartsWith (haystack needle : String) : Bool :=
  needle.toList.isPrefixOf haystack.toList

/-- Python `text.lower()` (the inputs the code lowercases are ASCII or
emoji, on which Python and `Char.toLower` agree). -/
def pyLower (s : String) : String :=
  String.mk (s.toList.map Char.toLower)

/-- Python `text.strip()`: drop leading and trailing whitespace. -/
def pyStrip (s : String) : String :=
  String.mk ((s.toList.dropWhile Char.isWhitespace).reverse.dropWhile
    Char.isWhitespace).reverse

namespace Config

/-- `config.MAX_RESULTS` -/
def MAX_RESULTS : Nat := 3

/-- `config.MAX_CONVERSATION_TURNS` -/
def MAX_CONVERSATION_TURNS : Nat := 10

/-- `config.FALLBACK_RESPONSES` -/
def FALLBACK_RESPONSES : List String :=
  ["I\x27m not sure how to respond to that.",
   "Could you rephrase that?",
   "I need more examples to learn from."]

/-- A personality profile from `config.PERSONALITIES`. -/
structure PersonalityProfile where
  name : String
  description : String
  systemPrompt : String
deriving DecidableEq, Repr

/-- `config.PERSONALITIES`, in declaration order. -/
def PERSONALITIES : List (String × PersonalityProfile) :=
  [("default", ⟨"Your Style", "Replies exactly like you",
      "You are a personal assistant who responds exactly like the user would."⟩),
   ("friendly", ⟨"Friendly Buddy", "Warm, casual and enthusiastic",
      "You are a friendly, warm, and enthusiastic buddy. Use emojis occasionally. Keep responses casual and fun!"⟩),
   ("professional", ⟨"Professional", "Clean, formal and concise",
      "You are a professional assistant. Keep responses concise, clear, and formal."⟩),
   ("sarcastic", ⟨"Sarcastic", "Witty with some sarcasm",
      "You are witty and clever. Use light sarcasm occasionally. Keep it fun!"⟩),
   ("motivational", ⟨"Motivational Coach", "Encouraging and inspiring",
      "You are a motivational coach. Always encourage, inspire, and lift others up. Be positive and empowering!"⟩)]

/-- `config.MOODS`: per-mood keyword lists, in declaration order.  The
emoji entries here are genuine single-codepoint emoji in `config.py`
(the file is valid UTF-8). -/
def MOODS : List (String × List String) :=
  [("happy", ["😊", "😄", "🎉", "awesome", "great", "love"]),
   ("sad", ["😢", "💔", "upset", "miss", "lonely", "sad"]),
   ("angry", ["😠", "🤬", "mad", "annoyed", "frustrated"]),
   ("excited", ["🎉", "🚀", "can\x27t wait", "excited", "amazing"]),
   ("tired", ["😴", "exhausted", "sleepy", "tired", "drained"]),
   ("neutral", ["okay", "fine", "alright", "normal"])]

end Config

namespace Mood

/-- `MoodResult` dataclass from `src/core/mood.py`; floats as rationals. -/
structure MoodResult where
  mood : String
  confidence : ℚ
  intensity : ℚ
deriving DecidableEq, Repr

/-- The character classes of `MoodDetector.emoji_pattern`
(emoticons, symbols & pictographs, transport & map symbols, flags). -/
def isEmojiChar (c : Char) : Bool :=
  let n := c.toNat
  decide ((0x1F600 ≤ n ∧ n ≤ 0x1F64F) ∨ (0x1F300 ≤ n ∧ n ≤ 0x1F5FF) ∨
    (0x1F680 ≤ n ∧ n ≤ 0x1F6FF) ∨ (0x1F1E0 ≤ n ∧ n ≤ 0x1F1FF))

/-- `MoodDetector.mood_emoji_map` exactly as the bytes of
`src/core/mood.py` decode (UTF-8): each key is the sequence of codepoints
that actually appears in the source string literal.  (In the source file
these literals are mojibake — the UTF-8 bytes of an emoji re-decoded as
cp1252 — so every key has two or more characters.) -/
def moodEmojiMap : List (String × String) :=
  [(String.mk [Char.ofNat 0xf0, Char.ofNat 0x178, Char.ofNat 0x2dc, Char.ofNat 0x160], "happy"),
   (String.mk [Char.ofNat 0xf0, Char.ofNat 0x178, Char.ofNat 0x2dc, Char.ofNat 0x201e], "happy"),
   (String.mk [Char.ofNat 0xf0, Char.ofNat 0x178, Char.ofNat 0x17d, Char.ofNat 0x2030], "happy"),
   (String.mk [Char.ofNat 0xe2, Char.ofNat 0xa4, Char.ofNat 0xef, Char.ofNat 0xb8], "happy"),
   (String.mk [Char.ofNat 0xf0, Char.ofNat 0x178, Char.ofNat 0x2dc, Char.ofNat 0xa2], "sad"),
   (String.mk [Char.ofNat 0xf0, Char.ofNat 0x178, Char.ofNat 0x2019, Char.ofNat 0x201d], "sad"),
   (String.mk [Char.ofNat 0xf0, Char.ofNat 0x178, Char.ofNat 0x2dc, Char.ofNat 0xad], "sad"),
   (String.mk [Char.ofNat 0xf0, Char.ofNat 0x178, Char.ofNat 0x2dc, Char.ofNat 0x17e], "sad"),
   (String.mk [Char.ofNat 0xf0, Char.ofNat 0x178, Char.ofNat 0x2dc, Char.ofNat 0xa0], "angry"),
   (String.mk [Char.ofNat 0xf0, Char.ofNat 0x178, Char.ofNat 0xa4, Char.ofNat 0xac], "angry"),
   (String.mk [Char.ofNat 0xf0, Char.ofNat 0x178, Char.ofNat 0x2dc, Char.ofNat 0xa4], "angry"),
   (String.mk [Char.ofNat 0xf0, Char.ofNat 0x178, Char.ofNat 0x161, Char.ofNat 0x20ac], "excited"),
   (String.mk [Char.ofNat 0xf0, Char.ofNat 0x178, Char.ofNat 0x17d, Char.ofNat 0x160], "excited"),
   (String.mk [Char.ofNat 0xe2, Char.ofNat 0xad], "excited"),
   (String.mk [Char.ofNat 0xf0, Char.ofNat 0x178, Char.ofNat 0x2dc, Char.ofNat 0xb4], "tired"),
   (String.mk [Char.ofNat 0xf0, Char.ofNat 0x178, Char.ofNat 0x2019, Char.ofNat 0xa4], "tired"),
   (String.mk [Char.ofNat 0xf0, Char.ofNat 0x178, Char.ofNat 0xa5, Char.ofNat 0xb1], "tired")]

/-- The characters of every maximal emoji run found by
`emoji_pattern.findall`, flattened in text order — exactly the characters
the `for emoji in emojis: for char in emoji:` loop visits. -/
def emojiScanChars (text : String) : List Char :=
  text.toList.filter isEmojiChar

/-- The first single scanned character that is a key of
`mood_emoji_map` (`if char in self.mood_emoji_map`), with its mood. -/
def emojiMoodHit (text : String) : Option String :=
  (emojiScanChars text).findSome? fun c => moodEmojiMap.lookup (String.singleton c)

/-- Per-mood keyword scores: `mood_scores` after the keyword loop.  Each
keyword contributes 1 when it occurs as a substring of the lowercased
text (`if keyword in text_lower`). -/
def moodScores (text : String) : List (String × Nat) :=
  let lower := pyLower text
  Config.MOODS.map fun p => (p.1, (p.2.filter fun kw => occursIn kw lower).length)

/-- Python `max(mood_scores.values())`. -/
def maxScore (text : String) : Nat :=
  ((moodScores text).map Prod.snd).foldl max 0

/-- Python `max(mood_scores, key=mood_scores.get)`: iterate in insertion
order keeping the current best, replacing only on a strictly larger
value — so the first key attaining the maximum wins. -/
def argmaxFold (l : List (String × Nat)) (a : String × Nat) : String × Nat :=
  l.foldl (fun best p => if best.2 < p.2 then p else best) a

/-- `MoodDetector.detect` from `src/core/mood.py`. -/
def detect (text : String) : MoodResult :=
  match emojiMoodHit text with
  | some m => ⟨m, 9/10, 1⟩
  | none =>
    let scores := moodScores text
    if maxScore text = 0 then ⟨"neutral", 1/2, 3/10⟩
    else
      let best := argmaxFold scores.tail (scores.headI)
      ⟨best.1, min (19/20) (1/2 + best.2 * (3/20)), min 1 ((best.2 : ℚ) / 3)⟩

/-- `MoodDetector.get_response_modifier`. -/
def getResponseModifier (m : MoodResult) : String :=
  if m.mood = "happy" then "Match the user\x27s happy energy!"
  else if m.mood = "sad" then "Be gentle and supportive. The user might need comfort."
  else if m.mood = "angry" then "Stay calm and understanding. Don\x27t take it personally."
  else if m.mood = "excited" then "Match the excitement! Be energetic!"
  else if m.mood = "tired" then "Be understanding and keep responses brief."
  else ""

/-- `LanguageDetector.language_patterns`: unicode ranges in declaration
(= priority) order. -/
def languagePatterns : List (String × Nat × Nat) :=
  [("hi", 0x900, 0x97F), ("te", 0xC00, 0xC7F),
   ("ta", 0xB80, 0xBFF), ("ml", 0xD00, 0xD7F)]

/-- `pattern.search(text)` for a character-class pattern: some character
of the text lies in the range. -/
def rangeMatches (lo hi : Nat) (text : String) : Bool :=
  text.toList.any fun c => decide (lo ≤ c.toNat ∧ c.toNat ≤ hi)

/-- `LanguageDetector.detect`. -/
def detectLanguage (text : String) : String :=
  match languagePatterns.find? (fun p => rangeMatches p.2.1 p.2.2 text) with
  | some p => p.1
  | none => "en"

/-- `PersonalityManager.set_personality`: the manager's state is its
`current_personality` key; returns the success flag and the new state. -/
def setPersonality (key : String) (current : String) : Bool × String :=
  if (Config.PERSONALITIES.lookup key).isSome then (true, key) else (false, current)

/-- The pair of `current_personality` selectors of the two
`PersonalityManager` instances the bot holds (the graph's, used by the
pipeline, and the bot's own). -/
structure BotPersonalitySel where
  graphCurrent : String
  botCurrent : String
deriving DecidableEq, Repr

/-- `PersonalReplyBot.set_personality`: calls
`graph.change_personality` and, on success, also updates the bot's own
manager. -/
def botSetPersonality (key : String) (s : BotPersonalitySel) : Bool × BotPersonalitySel :=
  let (success, g) := setPersonality key s.graphCurrent
  if success then (true, ⟨g, (setPersonality key s.botCurrent).2⟩) else (false, s)

end Mood

namespace Mood

/-- Running maximum of the score values, seeded with `a`. -/
def valsMax (l : List (String × Nat)) (a : Nat) : Nat :=
  l.foldl (fun m p => max m p.2) a

theorem valsMax_ge (l : List (String × Nat)) (a : Nat) : a ≤ valsMax l a := by
  induction l generalizing a with
  | nil => exact Nat.le_refl a
  | cons b t ih =>
    exact Nat.le_trans (Nat.le_max_left a b.2) (ih (max a b.2))

theorem mem_le_valsMax (l : List (String × Nat)) (a : Nat) :
    ∀ p ∈ l, p.2 ≤ valsMax l a := by
  induction l generalizing a with
  | nil => intro p hp; cases hp
  | cons b t ih =>
    intro p hp
    rcases List.mem_cons.mp hp with rfl | hp
    · exact Nat.le_trans (Nat.le_max_right a p.2) (valsMax_ge t (max a p.2))
    · exact ih (max a b.2) p hp

theorem argmaxFold_snd (l : List (String × Nat)) (a : String × Nat) :
    (argmaxFold l a).2 = valsMax l a.2 := by
  induction l generalizing a with
  | nil => rfl
  | cons b t ih =>
    show (argmaxFold t (if a.2 < b.2 then b else a)).2 = valsMax t (max a.2 b.2)
    rw [ih]
    congr 1
    by_cases h : a.2 < b.2
    · simp [h, Nat.max_eq_right (Nat.le_of_lt h)]
    · simp [h, Nat.max_eq_left (Nat.le_of_not_lt h)]

theorem find?_congr_mem {α : Type} (l : List α) (p q : α → Bool)
    (h : ∀ x ∈ l, p x = q x) : l.find? p = l.find? q := by
  induction l with
  | nil => rfl
  | cons b t ih =>
    have hb := h b (List.mem_cons_self b t)
    by_cases hp : p b = true
    · rw [List.find?_cons_of_pos _ hp, List.find?_cons_of_pos _ (hb ▸ hp)]
    · have hp' : p b = false := Bool.eq_false_iff.mpr hp
      rw [List.find?_cons_of_neg _ hp, List.find?_cons_of_neg _ (hb ▸ hp)]
      exact ih fun x hx => h x (List.mem_cons_of_mem b hx)

theorem find?_ge_eq_argmax (l : List (String × Nat)) (a : String × Nat) :
    (a :: l).find? (fun p => decide (valsMax l a.2 ≤ p.2)) = some (argmaxFold l a) := by
  induction l generalizing a with
  | nil =>
    simp [argmaxFold, valsMax]
  | cons b t ih =>
    have hM : valsMax (b :: t) a.2 = valsMax t (if a.2 < b.2 then b else a).2 := by
      show valsMax t (max a.2 b.2) = _
      congr 1
      by_cases h : a.2 < b.2
      · simp [h, Nat.max_eq_right (Nat.le_of_lt h)]
      · simp [h, Nat.max_eq_left (Nat.le_of_not_lt h)]
    show ((a :: b :: t).find? fun p => decide (valsMax (b :: t) a.2 ≤ p.2)) =
      some (argmaxFold t (if a.2 < b.2 then b else a))
    rw [hM]
    by_cases h : a.2 < b.2
    · simp only [h, if_true]
      have ha : ¬ (valsMax t b.2 ≤ a.2) := fun hle =>
        Nat.not_le_of_lt h (Nat.le_trans (valsMax_ge t b.2) hle)
      rw [List.find?_cons_of_neg _ (by simpa using ha)]
      exact ih b
    · simp only [h, if_false]
      have hba : b.2 ≤ a.2 := Nat.le_of_not_lt h
      by_cases hpa : valsMax t a.2 ≤ a.2
      · rw [List.find?_cons_of_pos _ (by simpa using hpa)]
        have := ih a
        rw [List.find?_cons_of_pos _ (by simpa using hpa)] at this
        exact this
      · rw [List.find?_cons_of_neg _ (by simpa using hpa)]
        have hpb : ¬ (valsMax t a.2 ≤ b.2) := fun hle => hpa (Nat.le_trans hle hba)
        rw [List.find?_cons_of_neg _ (by simpa using hpb)]
        have := ih a
        rw [List.find?_cons_of_neg _ (by simpa using hpa)] at this
        exact this

/-- Modelled from the spec: "pick the category with the highest score.
Tie-break: first category in table declaration order" — the first
table entry whose score equals the maximum score. -/
def specBestMood (scores : List (String × Nat)) : Option (String × Nat) :=
  scores.find? fun p => decide (p.2 = (scores.map Prod.snd).foldl max 0)

/-- Modelled from the spec (§4.3 step 2): keyword scoring, first-highest
tie-break, neutral default and the confidence/intensity formulas. -/
def specKeywordMood (text : String) : MoodResult :=
  match specBestMood (moodScores text) with
  | some best =>
    if best.2 = 0 then ⟨"neutral", 1/2, 3/10⟩
    else ⟨best.1, min (19/20) (1/2 + best.2 * (3/20)), min 1 ((best.2 : ℚ) / 3)⟩
  | none => ⟨"neutral", 1/2, 3/10⟩

theorem foldl_max_map (l : List (String × Nat)) (a : Nat) :
    (l.map Prod.snd).foldl max a = valsMax l a := by
  rw [List.foldl_map]; rfl

theorem specBestMood_cons (s : String × Nat) (t : List (String × Nat)) :
    specBestMood (s :: t) = some (argmaxFold t s) := by
  unfold specBestMood
  have hM : ((s :: t).map Prod.snd).foldl max 0 = valsMax t s.2 := by
    rw [foldl_max_map]
    show valsMax t (max 0 s.2) = valsMax t s.2
    rw [Nat.max_eq_right (Nat.zero_le s.2)]
  rw [hM]
  rw [find?_congr_mem (s :: t) _ (fun p => decide (valsMax t s.2 ≤ p.2))
    (by
      intro x hx
      have hle : x.2 ≤ valsMax t s.2 := by
        rcases List.mem_cons.mp hx with rfl | hx
        · exact valsMax_ge t x.2
        · exact mem_le_valsMax t s.2 x hx
      by_cases hx2 : x.2 = valsMax t s.2
      · simp [hx2]
      · have : ¬ (valsMax t s.2 ≤ x.2) := fun hge => hx2 (Nat.le_antisymm hle hge)
        simp [hx2, this])]
  exact find?_ge_eq_argmax t s

/-- Evaluation helper: when no emoji-map hit occurs and the maximum
keyword score is non-zero, `detect` returns the fold-argmax mood with the
confidence/intensity formulas applied to its score. -/
theorem detect_eval (T : String) (hhit : emojiMoodHit T = none)
    (m : String) (k : Nat) (hk : ¬ maxScore T = 0)
    (hb : argmaxFold (moodScores T).tail (moodScores T).headI = (m, k)) :
    detect T = ⟨m, min (19/20) (1/2 + (k : ℚ) * (3/20)), min 1 ((k : ℚ) / 3)⟩ := by
  simp only [detect, hhit, if_neg hk, hb]

end Mood

/-- **C3** (code_bug evaluation).  The spec claims that for a text with a
mood-mapped emoji — in particular `"I am so happy today! 😊"` — `detect`
returns that mood with confidence 0.9 and intensity 1.0 via the emoji
scan.  On the code as written the emoji branch never fires: every key of
`mood_emoji_map` has at least two characters (the literals are mojibake),
so the single-character membership test fails, `emojiMoodHit` is `none`,
and the claimed input is classified by keyword scoring instead, giving
confidence 13/20 = 0.65 and intensity 1/3 — not 0.9 and 1.0. -/
theorem c3_emoji_precedence_fails_on_code :
    Mood.moodEmojiMap.all (fun p => Nat.ble 2 p.1.length) = true ∧
    Mood.emojiMoodHit "I am so happy today! 😊" = none ∧
    Mood.detect "I am so happy today! 😊" = ⟨"happy", 13/20, 1/3⟩ ∧
    (Mood.detect "I am so happy today! 😊").confidence ≠ 9/10 ∧
    (Mood.detect "I am so happy today! 😊").intensity ≠ 1 := by
  have hD : Mood.detect "I am so happy today! 😊" =
      ⟨"happy", min (19/20) (1/2 + ((1 : Nat) : ℚ) * (3/20)), min 1 (((1 : Nat) : ℚ) / 3)⟩ :=
    Mood.detect_eval _ (by decide) "happy" 1 (by decide) (by decide)
  refine ⟨by decide, by decide, ?_, ?_, ?_⟩
  · rw [hD]
    simp only [Mood.MoodResult.mk.injEq]
    norm_num [min_def]
  · rw [hD]
    norm_num [min_def]
  · rw [hD]
    norm_num [min_def]

/-- **C4** (confirmed).  When no mapped emoji is found, `detect` returns
exactly the spec's keyword-scoring result: score each mood by the
case-insensitive substring keywords it matches; if the maximum score is 0
return `neutral`/0.5/0.3; otherwise return the first declaration-order
category attaining the maximum score, with confidence
`min(0.95, 0.5 + 0.15*score)` and intensity `min(1.0, score/3)`. -/
theorem c4_keyword_scoring (text : String) (h : Mood.emojiMoodHit text = none) :
    Mood.detect text = Mood.specKeywordMood text := by
  have hne : Mood.moodScores text ≠ [] := by
    simp [Mood.moodScores, Config.MOODS]
  obtain ⟨s, t, hs⟩ := List.exists_cons_of_ne_nil hne
  have hmax : Mood.maxScore text = Mood.valsMax t s.2 := by
    unfold Mood.maxScore
    rw [hs, Mood.foldl_max_map]
    show Mood.valsMax t (max 0 s.2) = Mood.valsMax t s.2
    rw [Nat.max_eq_right (Nat.zero_le s.2)]
  have hbest : Mood.specBestMood (Mood.moodScores text) = some (Mood.argmaxFold t s) := by
    rw [hs]; exact Mood.specBestMood_cons s t
  have hsnd : (Mood.argmaxFold t s).2 = Mood.maxScore text := by
    rw [Mood.argmaxFold_snd, hmax]
  simp only [Mood.detect, Mood.specKeywordMood, h, hbest]
  by_cases h0 : Mood.maxScore text = 0
  · simp only [h0, if_pos rfl, hsnd, if_true]
  · simp only [hsnd, if_neg h0, hs, List.tail_cons, List.headI]

/-- Witness for C4: `"the quick brown fox"` has no emoji-map hit and no
keyword match, so both sides give the neutral default 0.5/0.3. -/
theorem c4_keyword_scoring_witness :
    Mood.emojiMoodHit "the quick brown fox" = none ∧
    Mood.detect "the quick brown fox" = ⟨"neutral", 1/2, 3/10⟩ ∧
    Mood.specKeywordMood "the quick brown fox" = ⟨"neutral", 1/2, 3/10⟩ := by
  refine ⟨by decide, ?_, rfl⟩
  rw [c4_keyword_scoring "the quick brown fox" (by decide)]
  rfl

/-- **C7** (confirmed).  `LanguageDetector.detect` tries the fixed
unicode-range patterns in declaration order and returns the first code
whose range contains some character of the text, defaulting to `"en"`:
any text with a Devanagari character yields `"hi"` (so in particular
all-Devanagari text does), a text matching no range yields `"en"`, and in
general the result is the first matching pattern's code. -/
theorem c7_language_priority (text : String) :
    (Mood.rangeMatches 0x900 0x97F text = true → Mood.detectLanguage text = "hi") ∧
    ((∀ p ∈ Mood.languagePatterns, Mood.rangeMatches p.2.1 p.2.2 text = false) →
      Mood.detectLanguage text = "en") ∧
    Mood.detectLanguage text =
      ((Mood.languagePatterns.find? fun p => Mood.rangeMatches p.2.1 p.2.2 text).map
        Prod.fst).getD "en" := by
  refine ⟨?_, ?_, ?_⟩
  · intro h
    simp [Mood.detectLanguage, Mood.languagePatterns, List.find?, h]
  · intro h
    have hn : (Mood.languagePatterns.find? fun p => Mood.rangeMatches p.2.1 p.2.2 text)
        = none := List.find?_eq_none.mpr (by intro p hp; simp [h p hp])
    simp only [Mood.detectLanguage, hn]
  · simp only [Mood.detectLanguage]
    cases (Mood.languagePatterns.find? fun p => Mood.rangeMatches p.2.1 p.2.2 text) <;> rfl

/-- Witness for C7: all-Devanagari `"नमस्ते"` gives `"hi"`; `"hello"`
matches no range and gives `"en"`. -/
theorem c7_language_priority_witness :
    Mood.detectLanguage "नमस्ते" = "hi" ∧ Mood.detectLanguage "hello" = "en" := by
  exact ⟨(c7_language_priority "नमस्ते").1 (by decide),
    (c7_language_priority "hello").2.1 (by decide)⟩

/-- **C8** (confirmed).  `set_personality` on a key outside the fixed
catalog returns `False` and leaves the current selection unchanged (both
at the manager and at the bot level, where the two managers' selectors
are both untouched); on a key in the catalog it returns `True` and the
key becomes the current selection. -/
theorem c8_set_personality (key : String) (s : Mood.BotPersonalitySel) :
    ((Config.PERSONALITIES.lookup key).isSome = false →
      Mood.setPersonality key s.graphCurrent = (false, s.graphCurrent) ∧
      Mood.botSetPersonality key s = (false, s)) ∧
    ((Config.PERSONALITIES.lookup key).isSome = true →
      Mood.setPersonality key s.graphCurrent = (true, key) ∧
      Mood.botSetPersonality key s = (true, ⟨key, key⟩)) := by
  constructor
  · intro h
    constructor
    · unfold Mood.setPersonality
      rw [h]
      rfl
    · unfold Mood.botSetPersonality Mood.setPersonality
      rw [h]
      rfl
  · intro h
    constructor
    · unfold Mood.setPersonality
      rw [h]
      rfl
    · unfold Mood.botSetPersonality Mood.setPersonality
      rw [h]
      rfl

/-- Witness for C8: `"nonsense"` is rejected and mutates nothing;
`"friendly"` is accepted and becomes the selection of both managers. -/
theorem c8_set_personality_witness :
    Mood.botSetPersonality "nonsense" ⟨"default", "default"⟩ =
      (false, ⟨"default", "default"⟩) ∧
    Mood.botSetPersonality "friendly" ⟨"default", "default"⟩ =
      (true, ⟨"friendly", "friendly"⟩) := by
  exact ⟨((c8_set_personality "nonsense" ⟨"default", "default"⟩).1 (by decide)).2,
    ((c8_set_personality "friendly" ⟨"default", "default"⟩).2 (by decide)).2⟩

namespace Memory

/-- Python `l[-n:]` (also the effective content of a deque with maxlen
`n` after appending `l` in order). -/
def lastN {α : Type} (n : Nat) (l : List α) : List α :=
  l.drop (l.length - n)

/-- `Message` dataclass from `src/memory.py`; `datetime.now().isoformat()`
timestamps are modelled as abstract clock values supplied by the caller. -/
structure Message where
  role : String
  content : String
  timestamp : Nat
  mood : Option String := none
  language : Option String := none
deriving DecidableEq, Repr

/-- `max_turns or config.MAX_CONVERSATION_TURNS`: Python `or` falls back
when the argument is `None` or `0` (both falsy). -/
def resolveMaxTurns : Option Nat → Nat
  | none => Config.MAX_CONVERSATION_TURNS
  | some 0 => Config.MAX_CONVERSATION_TURNS
  | some (n+1) => n+1

/-- Ordered-dict update: overwrite in place if the key exists, else
append (CPython dict assignment semantics). -/
def assocSet {α : Type} : List (String × α) → String → α → List (String × α)
  | [], k, v => [(k, v)]
  | (k', v') :: t, k, v =>
    if k' = k then (k, v) :: t else (k', v') :: assocSet t k v

/-- `ConversationMemory`: bounded per-user message deques. -/
structure ConversationMemory where
  maxTurns : Nat
  conversations : List (String × List Message)
deriving DecidableEq, Repr

/-- The per-user deque contents (empty when the user has no entry). -/
def getConv (mem : ConversationMemory) (uid : String) : List Message :=
  (mem.conversations.lookup uid).getD []

/-- `deque.append` under `maxlen = T`: evict the oldest on overflow. -/
def dequeAppend (T : Nat) (l : List Message) (m : Message) : List Message :=
  if l.length < T then l ++ [m] else l.drop 1 ++ [m]

/-- `ConversationMemory.add_message` (the synchronous full-store JSON
save has no observable effect on the in-memory state modelled here). -/
def addMessage (mem : ConversationMemory) (uid role content : String)
    (mood lang : Option String) (ts : Nat) : ConversationMemory :=
  let cur := getConv mem uid
  let updated := dequeAppend mem.maxTurns cur ⟨role, content, ts, mood, lang⟩
  { mem with conversations := assocSet mem.conversations uid updated }

/-- `ConversationMemory.get_context`. -/
def getContext (mem : ConversationMemory) (uid : String) : List Message :=
  getConv mem uid

/-- `ConversationMemory.get_formatted_context`. -/
def getFormattedContext (mem : ConversationMemory) (uid : String) : String :=
  let msgs := getContext mem uid
  if msgs.isEmpty then ""
  else String.intercalate "\n" (msgs.map fun m =>
    (if m.role = "user" then "User: " else "Bot: ") ++ m.content)

/-- `ConversationMemory.clear_conversation`. -/
def clearConversation (mem : ConversationMemory) (uid : String) : ConversationMemory :=
  if (mem.conversations.lookup uid).isSome then
    { mem with conversations := assocSet mem.conversations uid [] }
  else mem

/-- A `LongTermMemory` fact record. -/
structure FactRec where
  userId : String
  fact : String
  category : String
  timestamp : Nat
deriving DecidableEq, Repr

/-- `LongTermMemory.add_fact`. -/
def addFact (facts : List FactRec) (uid f : String) (category : String)
    (ts : Nat) : List FactRec :=
  facts ++ [⟨uid, f, category, ts⟩]

/-- `LongTermMemory.get_facts`: the user's facts, last 10. -/
def getFacts (facts : List FactRec) (uid : String) : List String :=
  lastN 10 ((facts.filter fun f => f.userId = uid).map fun f => f.fact)

/-- `LongTermMemory.get_formatted_memory`. -/
def getFormattedMemory (facts : List FactRec) (uid : String) : String :=
  let fs := getFacts facts uid
  if fs.isEmpty then ""
  else "Things I remember about you: " ++ String.intercalate "; " fs

theorem lookup_assocSet_self {α : Type} (l : List (String × α)) (k : String) (v : α) :
    (assocSet l k v).lookup k = some v := by
  induction l with
  | nil => simp [assocSet, List.lookup]
  | cons p t ih =>
    obtain ⟨a, b⟩ := p
    by_cases h : a = k
    · simp [assocSet, h, List.lookup]
    · have hb : (k == a) = false := beq_eq_false_iff_ne.mpr (Ne.symm h)
      simp [assocSet, h, List.lookup, hb, ih]

theorem lookup_assocSet_ne {α : Type} (l : List (String × α)) (k k' : String)
    (v : α) (h : k' ≠ k) : (assocSet l k v).lookup k' = l.lookup k' := by
  induction l with
  | nil =>
    have hb : (k' == k) = false := beq_eq_false_iff_ne.mpr h
    simp [assocSet, List.lookup, hb]
  | cons p t ih =>
    obtain ⟨a, b⟩ := p
    by_cases hp : a = k
    · subst hp
      have hb : (k' == a) = false := beq_eq_false_iff_ne.mpr h
      simp [assocSet, List.lookup, hb]
    · simp [assocSet, hp, List.lookup, ih]

theorem getConv_addMessage_self (mem : ConversationMemory) (uid role content : String)
    (mood lang : Option String) (ts : Nat) :
    getConv (addMessage mem uid role content mood lang ts) uid =
      dequeAppend mem.maxTurns (getConv mem uid) ⟨role, content, ts, mood, lang⟩ := by
  simp [addMessage, getConv, lookup_assocSet_self]

theorem getConv_addMessage_ne (mem : ConversationMemory) (uid v role content : String)
    (mood lang : Option String) (ts : Nat) (h : v ≠ uid) :
    getConv (addMessage mem uid role content mood lang ts) v = getConv mem v := by
  simp [addMessage, getConv, lookup_assocSet_ne _ _ _ _ h]

theorem dequeAppend_lastN (T : Nat) (hT : 1 ≤ T) (l : List Message) (m : Message) :
    dequeAppend T (lastN T l) m = lastN T (l ++ [m]) := by
  unfold dequeAppend lastN
  rcases Nat.lt_or_ge l.length T with h | h
  · have h0 : l.length - T = 0 := Nat.sub_eq_zero_of_le (Nat.le_of_lt h)
    have h1 : l.length + 1 - T = 0 := Nat.sub_eq_zero_of_le h
    simp [h0, h1, h]
  · have hlen : (l.drop (l.length - T)).length = T := by
      simp [List.length_drop]
      omega
    rw [if_neg (by rw [hlen]; exact Nat.lt_irrefl T)]
    have h1 : (l ++ [m]).length - T = l.length + 1 - T := by
      simp [List.length_append]
    rw [h1, List.drop_append_of_le_length (by omega), List.drop_drop]
    have h2 : l.length - T + 1 = l.length + 1 - T := by omega
    rw [h2]

/-- Folding `add_message` for a fixed user over a message list. -/
def addAll (mem : ConversationMemory) (uid : String) (msgs : List Message) :
    ConversationMemory :=
  msgs.foldl (fun m msg =>
    addMessage m uid msg.role msg.content msg.mood msg.language msg.timestamp) mem

theorem getConv_addAll_ne (mem : ConversationMemory) (uid v : String)
    (msgs : List Message) (h : v ≠ uid) :
    getConv (addAll mem uid msgs) v = getConv mem v := by
  induction msgs generalizing mem with
  | nil => rfl
  | cons m t ih =>
    show getConv (addAll (addMessage mem uid m.role m.content m.mood m.language m.timestamp) uid t) v = _
    rw [ih, getConv_addMessage_ne _ _ _ _ _ _ _ _ h]

theorem maxTurns_addAll (mem : ConversationMemory) (uid : String) (msgs : List Message) :
    (addAll mem uid msgs).maxTurns = mem.maxTurns := by
  induction msgs generalizing mem with
  | nil => rfl
  | cons m t ih =>
    show (addAll (addMessage mem uid m.role m.content m.mood m.language m.timestamp) uid t).maxTurns = _
    rw [ih]
    rfl

theorem getConv_addAll (mem : ConversationMemory) (uid : String) (msgs : List Message)
    (hT : 1 ≤ mem.maxTurns) (pre : List Message)
    (hpre : getConv mem uid = lastN mem.maxTurns pre) :
    getConv (addAll mem uid msgs) uid = lastN mem.maxTurns (pre ++ msgs) := by
  induction msgs generalizing mem pre with
  | nil => simpa using hpre
  | cons m t ih =>
    show getConv (addAll (addMessage mem uid m.role m.content m.mood m.language m.timestamp) uid t) uid = _
    have hstep : getConv (addMessage mem uid m.role m.content m.mood m.language m.timestamp) uid =
        lastN mem.maxTurns (pre ++ [m]) := by
      rw [getConv_addMessage_self, hpre, dequeAppend_lastN _ hT]
    have := ih (addMessage mem uid m.role m.content m.mood m.language m.timestamp)
      hT (pre ++ [m]) hstep
    simpa using this

theorem head?_drop_eq_get? {α : Type} (l : List α) (n : Nat) :
    (l.drop n).head? = l.get? n := by
  induction l generalizing n with
  | nil => simp
  | cons a t ih =>
    cases n with
    | zero => rfl
    | succ m => exact ih m

end Memory

/-- **C5** (confirmed).  For a user with conversation capacity `T ≥ 1`
and no prior history, appending `T + k` messages (`k ≥ 1`) through
`add_message` leaves `get_context` with exactly the last `T` messages in
oldest-first order: the result is `msgs.drop k`, has length `T`, starts
with the `(k+1)`-th appended message, and other users' contexts are
untouched. -/
theorem c5_memory_bound (mem : Memory.ConversationMemory) (uid : String)
    (msgs : List Memory.Message) (T k : Nat)
    (hT : mem.maxTurns = T) (hT1 : 1 ≤ T) (hk : 1 ≤ k)
    (hlen : msgs.length = T + k)
    (hempty : Memory.getContext mem uid = []) :
    Memory.getContext (Memory.addAll mem uid msgs) uid = msgs.drop k ∧
    (Memory.getContext (Memory.addAll mem uid msgs) uid).length = T ∧
    (Memory.getContext (Memory.addAll mem uid msgs) uid).head? = msgs.get? k ∧
    ∀ v, v ≠ uid →
      Memory.getContext (Memory.addAll mem uid msgs) v = Memory.getContext mem v := by
  have hctx : Memory.getContext (Memory.addAll mem uid msgs) uid = msgs.drop k := by
    have hpre : Memory.getConv mem uid = Memory.lastN mem.maxTurns [] := by
      have h0 : Memory.lastN mem.maxTurns ([] : List Memory.Message) = [] := by
        simp [Memory.lastN]
      rw [h0]
      exact hempty
    have hmain := Memory.getConv_addAll mem uid msgs (by rw [hT]; exact hT1) [] hpre
    show Memory.getConv (Memory.addAll mem uid msgs) uid = msgs.drop k
    rw [hmain]
    unfold Memory.lastN
    simp only [List.nil_append]
    rw [hT, hlen]
    congr 1
    omega
  refine ⟨hctx, ?_, ?_, ?_⟩
  · rw [hctx, List.length_drop, hlen]
    omega
  · rw [hctx, Memory.head?_drop_eq_get?]
  · intro v hv
    exact Memory.getConv_addAll_ne mem uid v msgs hv

/-- Witness for C5: capacity 2, three messages appended; the context is
the last two, and user `"w"` is unaffected. -/
theorem c5_memory_bound_witness :
    Memory.getContext (Memory.addAll ⟨2, []⟩ "u"
      [⟨"user", "m1", 0, none, none⟩, ⟨"user", "m2", 1, none, none⟩,
       ⟨"user", "m3", 2, none, none⟩]) "u" =
      [⟨"user", "m2", 1, none, none⟩, ⟨"user", "m3", 2, none, none⟩] ∧
    Memory.getContext (Memory.addAll ⟨2, []⟩ "u"
      [⟨"user", "m1", 0, none, none⟩, ⟨"user", "m2", 1, none, none⟩,
       ⟨"user", "m3", 2, none, none⟩]) "w" = [] := by
  have h := c5_memory_bound ⟨2, []⟩ "u"
    [⟨"user", "m1", 0, none, none⟩, ⟨"user", "m2", 1, none, none⟩,
     ⟨"user", "m3", 2, none, none⟩] 2 1 rfl (by decide) (by decide) (by decide) rfl
  exact ⟨by rw [h.1]; rfl, (h.2.2.2 "w" (by decide)).trans rfl⟩

namespace Chain

/-- `TrainingExample` pydantic model from `src/core/chain.py`. -/
structure TrainingExample where
  input : String
  reply : String
  language : String := "en"
deriving DecidableEq, Repr

/-- The JSON document `save_training_data` writes to
`data/training_data.json`: one file-level `language` plus bare
`{input, reply}` pairs (per-example languages are dropped). -/
structure StoredFile where
  language : String
  examples : List (String × String)
deriving DecidableEq, Repr

/-- `save_training_data(examples, language)`. -/
def saveTrainingData (examples : List TrainingExample) (language : String) :
    StoredFile :=
  ⟨language, examples.map fun ex => (ex.input, ex.reply)⟩

/-- `load_training_data()`: absent file gives `[]`; otherwise every
loaded example's language is the single file-level `language` field
(`data.get("language", "en")`). -/
def loadTrainingData : Option StoredFile → List TrainingExample
  | none => []
  | some f => f.examples.map fun pr => ⟨pr.1, pr.2, f.language⟩

/-- A FAISS `Document` as the code builds it: `page_content` is the
example input, metadata carries the reply, language and an index. -/
structure IndexDoc where
  pageContent : String
  replyMeta : String
  langMeta : String
  indexMeta : Nat
deriving DecidableEq, Repr

/-- `VectorStoreManager.create_vector_store`: one document per example,
enumerated. -/
def mkDocs (examples : List TrainingExample) : List IndexDoc :=
  examples.enum.map fun pr => ⟨pr.2.input, pr.2.reply, pr.2.language, pr.1⟩

/-- `VectorStoreManager.add_example`: on an absent store, create it from
the single example; otherwise append the one document (metadata index 0,
as in the code). -/
def addExample (store : Option (List IndexDoc)) (ex : TrainingExample) :
    List IndexDoc :=
  match store with
  | none => mkDocs [ex]
  | some docs => docs ++ [⟨ex.input, ex.reply, ex.language, 0⟩]

end Chain

/-- **C10** (confirmed).  Saving then loading maps every example to the
same input/reply but with language replaced by the file-level `L`; hence
the round trip is not the identity whenever some example's language
differs from `L`. -/
theorem c10_save_load_roundtrip (examples : List Chain.TrainingExample) (L : String) :
    Chain.loadTrainingData (some (Chain.saveTrainingData examples L)) =
      examples.map (fun ex => ⟨ex.input, ex.reply, L⟩) ∧
    ((∃ ex ∈ examples, ex.language ≠ L) →
      Chain.loadTrainingData (some (Chain.saveTrainingData examples L)) ≠ examples) := by
  have hmap : Chain.loadTrainingData (some (Chain.saveTrainingData examples L)) =
      examples.map (fun ex => ⟨ex.input, ex.reply, L⟩) := by
    simp [Chain.loadTrainingData, Chain.saveTrainingData, List.map_map]
  refine ⟨hmap, ?_⟩
  rintro ⟨ex, hmem, hlang⟩ heq
  rw [hmap] at heq
  obtain ⟨i, hi, hgetex⟩ := List.mem_iff_getElem.mp hmem
  have hmapped := congrArg (fun l => l[i]?) heq
  simp only [List.getElem?_map] at hmapped
  rw [List.getElem?_eq_getElem hi] at hmapped
  simp only [Option.map_some', Option.some.injEq] at hmapped
  have hL : L = examples[i].language := congrArg Chain.TrainingExample.language hmapped
  rw [hgetex] at hL
  exact hlang hL.symm

/-- Witness for C10: one Telugu-tagged example saved under file language
`"en"` comes back with language `"en"`, so the round trip is not the
identity. -/
theorem c10_save_load_roundtrip_witness :
    Chain.loadTrainingData (some (Chain.saveTrainingData [⟨"hi", "hello", "te"⟩] "en")) =
      [⟨"hi", "hello", "en"⟩] ∧
    Chain.loadTrainingData (some (Chain.saveTrainingData [⟨"hi", "hello", "te"⟩] "en")) ≠
      [⟨"hi", "hello", "te"⟩] := by
  have h := c10_save_load_roundtrip [⟨"hi", "hello", "te"⟩] "en"
  exact ⟨h.1, h.2 ⟨⟨"hi", "hello", "te"⟩, by decide, by decide⟩⟩

deriving instance DecidableEq for Except

namespace Learn

/-- The importable module paths of this repository.  There is no
`src/chain.py`: the example-store/vector-store code lives at
`src/core/chain.py`, so the name `src.chain` is not importable. -/
def repoModules : List String :=
  ["config", "main", "server", "src.bot", "src.graph", "src.memory",
   "src.security", "src.analytics", "src.core.chain", "src.core.mood",
   "src.tools.filesystem", "src.tools.manager", "src.tools.scraper",
   "src.integrations.webhooks"]

/-- A `LearningSystem` pending-correction record. -/
structure CorrectionRec where
  userId : String
  query : String
  original : String
  corrected : String
  timestamp : Nat
deriving DecidableEq, Repr

/-- The on-disk data directory: the training-data JSON and the persisted
FAISS index (modelled by the documents it decodes to). -/
structure DiskState where
  trainingFile : Option Chain.StoredFile
  indexFiles : Option (List Chain.IndexDoc)
deriving DecidableEq, Repr

/-- Process state relevant to the Example Store and Similarity Index. -/
structure SysState where
  disk : DiskState
  vectorStore : Option (List Chain.IndexDoc)
  botExamples : List Chain.TrainingExample
  pendingCorrections : List CorrectionRec
deriving DecidableEq, Repr

/-- Process start: `VectorStoreManager._init_vector_store` loads the
persisted index when present; `AdvancedReplyGraph._init_vector_store`
then loads the training data and, when it is non-empty and no index was
loaded, creates and persists the index from the full store;
`PersonalReplyBot.__init__` loads the training data into memory. -/
def startProcess (d : DiskState) : SysState :=
  let vs0 := d.indexFiles
  let exs := Chain.loadTrainingData d.trainingFile
  if exs ≠ [] ∧ vs0 = none then
    let docs := Chain.mkDocs exs
    ⟨⟨d.trainingFile, some docs⟩, some docs, exs, []⟩
  else
    ⟨d, vs0, exs, []⟩

/-- `PersonalReplyBot.train`: append to the in-memory example list,
overwrite the training file (with the new example's language as the
file-level language), and add the single example to the vector store,
persisting it. -/
def train (s : SysState) (input reply language : String) : SysState :=
  let ex : Chain.TrainingExample := ⟨input, reply, language⟩
  let exs := s.botExamples ++ [ex]
  let file := Chain.saveTrainingData exs language
  let docs := Chain.addExample s.vectorStore ex
  ⟨⟨some file, some docs⟩, some docs, exs, s.pendingCorrections⟩

/-- `LearningSystem.add_correction` (reached unchanged through
`PersonalReplyBot.correct`): record the pending correction, then execute
`from src.chain import load_training_data, save_training_data,
TrainingExample`.  `src.chain` is not a module of this repository, so
that statement raises `ModuleNotFoundError`; the intended branch that
follows it in the source (load store, append `{query, corrected, "en"}`,
save, return the acknowledgement) is modelled but unreachable.  Note that
even that branch never touches the vector store. -/
def addCorrection (s : SysState) (userId query original corrected : String)
    (ts : Nat) : SysState × Except String String :=
  let s1 := { s with pendingCorrections :=
    s.pendingCorrections ++ [⟨userId, query, original, corrected, ts⟩] }
  if repoModules.contains "src.chain" then
    let exs := Chain.loadTrainingData s1.disk.trainingFile
    let exs2 := exs ++ [(⟨query, corrected, "en"⟩ : Chain.TrainingExample)]
    let newFile := some (Chain.saveTrainingData exs2 "en")
    ({ s1 with disk := { s1.disk with trainingFile := newFile } },
      Except.ok "Thanks! I\x27ve learned from your correction.")
  else
    (s1, Except.error "ModuleNotFoundError: No module named src.chain")

/-- The Similarity Index's effective corpus size. -/
def indexSize (s : SysState) : Nat := (s.vectorStore.getD []).length

/-- The Example Store's size as `load_training_data` would report it. -/
def storeSize (s : SysState) : Nat :=
  (Chain.loadTrainingData s.disk.trainingFile).length

end Learn

/-- **C1** (code_bug evaluation).  The spec claims `correct(query,
original, corrected, user_id)` appends exactly one TrainingExample to the
Example Store, propagates it into the Similarity Index, and returns a
fixed acknowledgement.  On the code, `LearningSystem.add_correction`
executes `from src.chain import ...` at call time; no module `src.chain`
exists in the repository (the code lives at `src.core.chain`), so every
call raises `ModuleNotFoundError` instead of returning the
acknowledgement, and neither the Example Store nor the Similarity Index
changes. -/
theorem c1_correct_raises_import_error :
    Learn.repoModules.contains "src.chain" = false ∧
    Learn.repoModules.contains "src.core.chain" = true ∧
    (Learn.addCorrection (Learn.startProcess ⟨none, none⟩) "U" "X" "foo" "bar" 0).2 =
      Except.error "ModuleNotFoundError: No module named src.chain" ∧
    (Learn.addCorrection (Learn.startProcess ⟨none, none⟩) "U" "X" "foo" "bar" 0).1.disk =
      (Learn.startProcess ⟨none, none⟩).disk ∧
    Learn.storeSize (Learn.addCorrection (Learn.startProcess ⟨none, none⟩) "U" "X" "foo" "bar" 0).1 =
      Learn.storeSize (Learn.startProcess ⟨none, none⟩) ∧
    Learn.indexSize (Learn.addCorrection (Learn.startProcess ⟨none, none⟩) "U" "X" "foo" "bar" 0).1 =
      Learn.indexSize (Learn.startProcess ⟨none, none⟩) ∧
    (⟨"X", "bar", "en"⟩ : Chain.TrainingExample) ∉
      Chain.loadTrainingData
        (Learn.addCorrection (Learn.startProcess ⟨none, none⟩) "U" "X" "foo" "bar" 0).1.disk.trainingFile := by
  decide

/-- **C2** (code_bug evaluation).  The rebuild-on-start half of the
claim holds: starting with a two-example store and no index, the index is
rebuilt from the full store and the sizes agree, and a `train` call grows
both to 3.  The per-call half fails on `correct`: the subsequent correct
call raises (`src.chain` import) and leaves both the store and the index
at size 3, so the corpus size does not grow by the correction that the
claim counts as an added TrainingExample. -/
theorem c2_index_consistency_fails_on_correct :
    (Learn.startProcess
        ⟨some (Chain.saveTrainingData [⟨"a", "b", "en"⟩, ⟨"c", "d", "en"⟩] "en"), none⟩).vectorStore =
      some (Chain.mkDocs (Chain.loadTrainingData
        (some (Chain.saveTrainingData [⟨"a", "b", "en"⟩, ⟨"c", "d", "en"⟩] "en")))) ∧
    Learn.indexSize (Learn.startProcess
        ⟨some (Chain.saveTrainingData [⟨"a", "b", "en"⟩, ⟨"c", "d", "en"⟩] "en"), none⟩) = 2 ∧
    Learn.storeSize (Learn.startProcess
        ⟨some (Chain.saveTrainingData [⟨"a", "b", "en"⟩, ⟨"c", "d", "en"⟩] "en"), none⟩) = 2 ∧
    Learn.indexSize (Learn.train (Learn.startProcess
        ⟨some (Chain.saveTrainingData [⟨"a", "b", "en"⟩, ⟨"c", "d", "en"⟩] "en"), none⟩)
        "e" "f" "en") = 3 ∧
    Learn.storeSize (Learn.train (Learn.startProcess
        ⟨some (Chain.saveTrainingData [⟨"a", "b", "en"⟩, ⟨"c", "d", "en"⟩] "en"), none⟩)
        "e" "f" "en") = 3 ∧
    (Learn.addCorrection (Learn.train (Learn.startProcess
        ⟨some (Chain.saveTrainingData [⟨"a", "b", "en"⟩, ⟨"c", "d", "en"⟩] "en"), none⟩)
        "e" "f" "en") "U" "X" "foo" "bar" 0).2 =
      Except.error "ModuleNotFoundError: No module named src.chain" ∧
    Learn.indexSize (Learn.addCorrection (Learn.train (Learn.startProcess
        ⟨some (Chain.saveTrainingData [⟨"a", "b", "en"⟩, ⟨"c", "d", "en"⟩] "en"), none⟩)
        "e" "f" "en") "U" "X" "foo" "bar" 0).1 = 3 ∧
    Learn.storeSize (Learn.addCorrection (Learn.train (Learn.startProcess
        ⟨some (Chain.saveTrainingData [⟨"a", "b", "en"⟩, ⟨"c", "d", "en"⟩] "en"), none⟩)
        "e" "f" "en") "U" "X" "foo" "bar" 0).1 = 3 := by
  decide

namespace Analytics

/-- `Analytics.data` counters (`defaultdict(int)` maps as association
lists; the bounded `corrections`/`feedback` logs are carried but no
claim touches them). -/
structure AnalyticsData where
  totalMessages : Nat
  conversations : Nat
  messagesByUser : List (String × Nat)
  messagesByMood : List (String × Nat)
  messagesByLanguage : List (String × Nat)
  dailyStats : List (String × Nat)
  corrections : List Learn.CorrectionRec
deriving DecidableEq, Repr

/-- `defaultdict(int)` increment: bump an existing key or create it
at 1. -/
def bump (l : List (String × Nat)) (k : String) : List (String × Nat) :=
  match l.lookup k with
  | some n => Memory.assocSet l k (n + 1)
  | none => l ++ [(k, 1)]

/-- `Analytics.track_message` (the `if mood:` / `if language:` guards are
None-checks here; the pipeline always passes non-empty labels). -/
def trackMessage (a : AnalyticsData) (uid : String) (mood lang : Option String)
    (day : String) : AnalyticsData :=
  { a with
    totalMessages := a.totalMessages + 1
    messagesByUser := bump a.messagesByUser uid
    dailyStats := bump a.dailyStats day
    messagesByMood := match mood with
      | some m => bump a.messagesByMood m
      | none => a.messagesByMood
    messagesByLanguage := match lang with
      | some l => bump a.messagesByLanguage l
      | none => a.messagesByLanguage }

end Analytics

namespace Graph

/-- One retrieved candidate (`{input, reply, language}`) built in
`_search_step` from a document. -/
structure SimilarExample where
  input : String
  reply : String
  language : String
deriving DecidableEq, Repr

/-- The process-wide mutable collaborators `AdvancedReplyGraph` owns. -/
structure GraphState where
  convMem : Memory.ConversationMemory
  facts : List Memory.FactRec
  analytics : Analytics.AnalyticsData
  currentPersonality : String
  vectorStore : Option (List Chain.IndexDoc)
deriving DecidableEq, Repr

/-- Request-scoped external capabilities: the single-turn language-model
call, the FAISS ranking (an oracle over the indexed documents, the query
and `k`), the `random.choice` draw for the fallback list, and the wall
clock (`datetime.now`) as an abstract day label and timestamp. -/
structure PipelineDeps where
  llm : String → String → String
  searchFn : List Chain.IndexDoc → String → Nat → List Chain.IndexDoc
  rng : Fin 3
  day : String
  clock : Nat

/-- `VectorStoreManager.similarity_search`: an absent store yields `[]`
without error; otherwise FAISS ranks the indexed documents. -/
def similaritySearch (store : Option (List Chain.IndexDoc))
    (searchFn : List Chain.IndexDoc → String → Nat → List Chain.IndexDoc)
    (query : String) : List Chain.IndexDoc :=
  match store with
  | none => []
  | some docs => searchFn docs query Config.MAX_RESULTS

/-- `ReplyGenerator._get_fallback_response`: `random.choice` over the
fixed fallback list, modelled by the supplied draw. -/
def getFallbackResponse (rng : Fin 3) : String :=
  Config.FALLBACK_RESPONSES.get rng

/-- The default generation prompt used when the personality prompt is
falsy (`system_prompt or """..."""`). -/
def defaultGenPrompt : String :=
  "You are a personal assistant who responds exactly like the user would.\n        Based on the examples provided, generate a reply that matches the user\x27s style and tone."

/-- `generate_reply`'s serialized candidate list. -/
def serializeExamples (exs : List SimilarExample) : String :=
  String.intercalate "\n" (exs.map fun e => "Input: " ++ e.input ++ " -> Reply: " ++ e.reply)

/-- `generate_reply`'s composed system message. -/
def composeSystemMsg (systemPrompt moodModifier memoryStr context : String) : String :=
  let base := if systemPrompt = "" then defaultGenPrompt else systemPrompt
  let m1 := if moodModifier = "" then base else base ++ "\n\n" ++ moodModifier
  let m2 := if memoryStr = "" then m1 else m1 ++ "\n\n" ++ memoryStr
  if context = "" then m2 else m2 ++ "\n\nRecent conversation:\n" ++ context

/-- The full system prompt `generate_reply` hands to the model (template
with examples and query substituted). -/
def fullSystemPrompt (systemPrompt moodModifier memoryStr context : String)
    (exs : List SimilarExample) (query : String) : String :=
  composeSystemMsg systemPrompt moodModifier memoryStr context ++
    "\n\nExamples:\n" ++ serializeExamples exs ++ "\n\nNow respond to: " ++ query

/-- The observable outcome of one `AdvancedReplyGraph.get_reply` run. -/
structure PipelineOutcome where
  reply : String
  isFallback : Bool
  llmCalls : Nat
  language : String
  mood : String
deriving DecidableEq, Repr

/-- `AdvancedReplyGraph.get_reply`: the staged pipeline
detect_language → detect_mood → get_context → search → generate with its
post-generation side effects (two conversation messages, one analytics
track). -/
def graphGetReply (g : GraphState) (deps : PipelineDeps) (query uid : String) :
    PipelineOutcome × GraphState :=
  let language := Mood.detectLanguage query
  let moodRes := Mood.detect query
  let modifier := Mood.getResponseModifier moodRes
  let context := Memory.getFormattedContext g.convMem uid
  let memoryStr := Memory.getFormattedMemory g.facts uid
  let sysPrompt := ((Config.PERSONALITIES.lookup g.currentPersonality).map
    Config.PersonalityProfile.systemPrompt).getD ""
  let docs := similaritySearch g.vectorStore deps.searchFn query
  let similar := docs.map fun d =>
    (⟨d.pageContent, d.replyMeta, d.langMeta⟩ : SimilarExample)
  let gen : String × Bool × Nat :=
    if similar.isEmpty then
      (getFallbackResponse deps.rng, true, 0)
    else
      (deps.llm (fullSystemPrompt sysPrompt modifier memoryStr context similar query) query,
        false, 1)
  let mem1 := Memory.addMessage g.convMem uid "user" query
    (some moodRes.mood) (some language) deps.clock
  let mem2 := Memory.addMessage mem1 uid "assistant" gen.1
    (some moodRes.mood) (some language) deps.clock
  let an := Analytics.trackMessage g.analytics uid
    (some moodRes.mood) (some language) deps.day
  (⟨gen.1, gen.2.1, gen.2.2, language, moodRes.mood⟩,
   { g with convMem := mem2, analytics := an })

end Graph

/-- **C6** (confirmed).  Whenever retrieval yields zero candidates the
pipeline's generate stage returns the fallback string selected by the
`random.choice` draw from the fixed fallback list (so every draw is a
member of that list), marks `is_fallback = true`, and makes no
language-model call; and an absent vector store (in particular the
empty-store start state) makes `similarity_search` return `[]` without
error. -/
theorem c6_fallback_on_empty (g : Graph.GraphState) (deps : Graph.PipelineDeps)
    (query uid : String) :
    (Graph.similaritySearch g.vectorStore deps.searchFn query = [] →
      (Graph.graphGetReply g deps query uid).1.reply = Config.FALLBACK_RESPONSES.get deps.rng ∧
      (Graph.graphGetReply g deps query uid).1.reply ∈ Config.FALLBACK_RESPONSES ∧
      (Graph.graphGetReply g deps query uid).1.isFallback = true ∧
      (Graph.graphGetReply g deps query uid).1.llmCalls = 0) ∧
    (g.vectorStore = none →
      Graph.similaritySearch g.vectorStore deps.searchFn query = []) := by
  constructor
  · intro h
    have hout : (Graph.graphGetReply g deps query uid).1 =
        ⟨Config.FALLBACK_RESPONSES.get deps.rng, true, 0,
          Mood.detectLanguage query, (Mood.detect query).mood⟩ := by
      simp only [Graph.graphGetReply, h, List.map_nil, List.isEmpty_nil, if_true,
        Graph.getFallbackResponse]
    rw [hout]
    exact ⟨rfl, List.get_mem Config.FALLBACK_RESPONSES deps.rng.1 (by exact deps.rng.isLt),
      rfl, rfl⟩
  · intro h
    simp [Graph.similaritySearch, h]

/-- Witness for C6: the empty-store start state with a concrete draw
yields the drawn fallback string, the fallback flag, and zero model
calls. -/
theorem c6_fallback_on_empty_witness :
    (Graph.graphGetReply ⟨⟨10, []⟩, [], ⟨0, 0, [], [], [], [], []⟩, "default", none⟩
      ⟨fun _ _ => "LLM", fun docs _ _ => docs, 1, "2025-01-01", 0⟩ "hello" "u").1.reply =
      "Could you rephrase that?" ∧
    (Graph.graphGetReply ⟨⟨10, []⟩, [], ⟨0, 0, [], [], [], [], []⟩, "default", none⟩
      ⟨fun _ _ => "LLM", fun docs _ _ => docs, 1, "2025-01-01", 0⟩ "hello" "u").1.isFallback = true ∧
    (Graph.graphGetReply ⟨⟨10, []⟩, [], ⟨0, 0, [], [], [], [], []⟩, "default", none⟩
      ⟨fun _ _ => "LLM", fun docs _ _ => docs, 1, "2025-01-01", 0⟩ "hello" "u").1.llmCalls = 0 := by
  have h := c6_fallback_on_empty
    ⟨⟨10, []⟩, [], ⟨0, 0, [], [], [], [], []⟩, "default", none⟩
    ⟨fun _ _ => "LLM", fun docs _ _ => docs, 1, "2025-01-01", 0⟩ "hello" "u"
  have hs := h.2 rfl
  have hc := h.1 hs
  exact ⟨hc.1.trans rfl, hc.2.2.1, hc.2.2.2⟩

namespace Bot

/-- `PersonalReplyBot.file_prefixes`. -/
def filePrefixList : List String :=
  ["ls", "list", "cd ", "pwd", "find ", "search ", "grep ", "read ", "cat ",
   "analyze ", "run ", "shell ", "drives", "desktop", "documents", "downloads", "home"]

/-- The keyword tuple inside `is_file_command`. -/
def fileKeywords : List String :=
  ["list files", "show files", "files in", "folder", "go to", "find file",
   "search for", "look for", "what\x27s in", "contents of", "navigate"]

/-- `PersonalReplyBot.is_file_command`. -/
def isFileCommand (message : String) : Bool :=
  let msg := pyStrip (pyLower message)
  filePrefixList.any (fun p => pyStartsWith msg p) ||
    fileKeywords.any (fun kw => occursIn kw msg)

/-- The keyword tuple inside `needs_full_access`. -/
def broadSearchKeywords : List String :=
  ["find", "search", "look for", "where is", "locate", "search all",
   "search everywhere", "entire", "full", "every folder", "every file",
   "all folders", "all files"]

/-- The location tuple inside `needs_full_access`. -/
def specificLocations : List String :=
  ["downloads", "desktop", "documents", "folder", "directory"]

/-- `PersonalReplyBot.needs_full_access`. -/
def needsFullAccess (message : String) : Bool :=
  let msg := pyStrip (pyLower message)
  broadSearchKeywords.any (fun kw => occursIn kw msg) &&
    !(specificLocations.any (fun loc => occursIn loc msg))

/-- The affirmative words checked for a pending permission response. -/
def yesWords : List String :=
  ["yes", "yeah", "sure", "do it", "go ahead", "please do"]

/-- The canned permission question returned by the full-access branch. -/
def permissionReply : String :=
  "🔍 This requires a full system search. Would you like me to search all folders on your computer? (This may take a moment)"

/-- `PersonalReplyBot` state: the graph's shared stores, the reply cache,
and `_pending_search` (modelled as a list; the attribute is never
assigned anywhere in the code, so it stays empty). -/
structure BotState where
  graph : Graph.GraphState
  cache : List (String × String)
  pendingSearch : List String
deriving DecidableEq, Repr

/-- The dict `get_reply` returns (`reply`, `type`, `tool_used`). -/
structure ReplyResult where
  reply : String
  rtype : String
  toolUsed : Bool
deriving DecidableEq, Repr

/-- Observables of one `get_reply` call: whether the LangGraph pipeline
ran and how many model calls were made. -/
structure CallInfo where
  ranPipeline : Bool
  llmCalls : Nat
deriving DecidableEq, Repr

/-- Bot-level external capabilities: the pipeline's, plus the tool
manager's execute-and-format (out of scope, an oracle). -/
structure BotDeps where
  pipeline : Graph.PipelineDeps
  toolFn : String → String

/-- `PersonalReplyBot.get_reply`. -/
def botGetReply (b : BotState) (deps : BotDeps) (message uid : String) :
    ReplyResult × BotState × CallInfo :=
  let msg := pyStrip message
  if needsFullAccess msg then
    (⟨permissionReply, "permission", true⟩, b, ⟨false, 0⟩)
  else if yesWords.contains (pyLower msg) && !b.pendingSearch.isEmpty then
    let query := b.pendingSearch.getLast!
    (⟨deps.toolFn query, "tool", true⟩,
      { b with pendingSearch := b.pendingSearch.dropLast }, ⟨false, 0⟩)
  else if isFileCommand msg then
    (⟨deps.toolFn msg, "tool", true⟩, b, ⟨false, 0⟩)
  else
    let key := uid ++ ":" ++ pyLower msg
    match b.cache.lookup key with
    | some r => (⟨r, "llm", false⟩, b, ⟨false, 0⟩)
    | none =>
      let out := Graph.graphGetReply b.graph deps.pipeline msg uid
      let cache1 := if b.cache.length > 100 then [] else b.cache
      (⟨out.1.reply, "llm", false⟩,
        { b with graph := out.2, cache := cache1 ++ [(key, out.1.reply)] },
        ⟨true, out.1.llmCalls⟩)

/-- `PersonalReplyBot.clear_conversation`: clears that user's
conversation and empties the whole reply cache. -/
def botClearConversation (b : BotState) (uid : String) : BotState :=
  { b with
    graph := { b.graph with convMem := Memory.clearConversation b.graph.convMem uid }
    cache := [] }

theorem lookup_append {α : Type} (l1 l2 : List (String × α)) (k : String) :
    (l1 ++ l2).lookup k =
      match l1.lookup k with
      | some v => some v
      | none => l2.lookup k := by
  induction l1 with
  | nil => rfl
  | cons p t ih =>
    obtain ⟨a, b⟩ := p
    by_cases h : k = a
    · simp [List.lookup, h]
    · have hb : (k == a) = false := beq_eq_false_iff_ne.mpr h
      simp [List.lookup, hb, ih]

/-- The non-tool branch on a cache hit. -/
theorem botGetReply_hit (b : BotState) (deps : BotDeps) (message uid : String)
    (h1 : needsFullAccess (pyStrip message) = false)
    (h2 : isFileCommand (pyStrip message) = false)
    (h3 : b.pendingSearch = []) (r : String)
    (hhit : b.cache.lookup (uid ++ ":" ++ pyLower (pyStrip message)) = some r) :
    botGetReply b deps message uid = (⟨r, "llm", false⟩, b, ⟨false, 0⟩) := by
  simp [botGetReply, h1, h2, h3, hhit]

/-- The non-tool branch on a cache miss: the pipeline runs, its reply is
returned and cached (after emptying the cache when it exceeded 100
entries). -/
theorem botGetReply_miss (b : BotState) (deps : BotDeps) (message uid : String)
    (h1 : needsFullAccess (pyStrip message) = false)
    (h2 : isFileCommand (pyStrip message) = false)
    (h3 : b.pendingSearch = [])
    (hmiss : b.cache.lookup (uid ++ ":" ++ pyLower (pyStrip message)) = none) :
    botGetReply b deps message uid =
      (⟨(Graph.graphGetReply b.graph deps.pipeline (pyStrip message) uid).1.reply, "llm", false⟩,
       { b with
          graph := (Graph.graphGetReply b.graph deps.pipeline (pyStrip message) uid).2
          cache := (if b.cache.length > 100 then [] else b.cache) ++
            [(uid ++ ":" ++ pyLower (pyStrip message),
              (Graph.graphGetReply b.graph deps.pipeline (pyStrip message) uid).1.reply)] },
       ⟨true, (Graph.graphGetReply b.graph deps.pipeline (pyStrip message) uid).1.llmCalls⟩) := by
  simp [botGetReply, h1, h2, h3, hmiss]

end Bot

/-- **C9** (confirmed).  `get_reply` caches non-tool replies under
`user_id + ":" + lowercased message`: a repeated identical message from
the same user returns the same reply with the whole bot state unchanged
(in particular no ConversationMessage appended and no Analytics counter
incremented) and without re-running the pipeline or calling the model;
`clear_conversation` empties the cache for any user; and when the cache
held more than 100 entries, a cache-missing call empties it before
inserting the one new entry. -/
theorem c9_reply_cache (b : Bot.BotState) (deps deps2 : Bot.BotDeps)
    (message uid : String) :
    (Bot.needsFullAccess (pyStrip message) = false →
     Bot.isFileCommand (pyStrip message) = false →
     b.pendingSearch = [] →
      ((Bot.botGetReply (Bot.botGetReply b deps message uid).2.1 deps2 message uid).1.reply =
         (Bot.botGetReply b deps message uid).1.reply ∧
       (Bot.botGetReply (Bot.botGetReply b deps message uid).2.1 deps2 message uid).2.1 =
         (Bot.botGetReply b deps message uid).2.1 ∧
       (Bot.botGetReply (Bot.botGetReply b deps message uid).2.1 deps2 message uid).2.1.graph.convMem =
         (Bot.botGetReply b deps message uid).2.1.graph.convMem ∧
       (Bot.botGetReply (Bot.botGetReply b deps message uid).2.1 deps2 message uid).2.1.graph.analytics =
         (Bot.botGetReply b deps message uid).2.1.graph.analytics ∧
       (Bot.botGetReply (Bot.botGetReply b deps message uid).2.1 deps2 message uid).2.2.ranPipeline = false ∧
       (Bot.botGetReply (Bot.botGetReply b deps message uid).2.1 deps2 message uid).2.2.llmCalls = 0)) ∧
    (Bot.botClearConversation b uid).cache = [] ∧
    (Bot.needsFullAccess (pyStrip message) = false →
     Bot.isFileCommand (pyStrip message) = false →
     b.pendingSearch = [] →
     b.cache.lookup (uid ++ ":" ++ pyLower (pyStrip message)) = none →
     b.cache.length > 100 →
      (Bot.botGetReply b deps message uid).2.1.cache =
        [(uid ++ ":" ++ pyLower (pyStrip message),
          (Bot.botGetReply b deps message uid).1.reply)]) := by
  refine ⟨?_, rfl, ?_⟩
  · intro h1 h2 h3
    cases hcl : b.cache.lookup (uid ++ ":" ++ pyLower (pyStrip message)) with
    | some r =>
      have hfst := Bot.botGetReply_hit b deps message uid h1 h2 h3 r hcl
      have hsnd := Bot.botGetReply_hit b deps2 message uid h1 h2 h3 r hcl
      simp [hfst, hsnd]
    | none =>
      have hfst := Bot.botGetReply_miss b deps message uid h1 h2 h3 hcl
      have hnone : (if b.cache.length > 100 then [] else b.cache).lookup
          (uid ++ ":" ++ pyLower (pyStrip message)) = none := by
        split
        · rfl
        · exact hcl
      have hl : ((if b.cache.length > 100 then [] else b.cache) ++
          [(uid ++ ":" ++ pyLower (pyStrip message),
            (Graph.graphGetReply b.graph deps.pipeline (pyStrip message) uid).1.reply)]).lookup
          (uid ++ ":" ++ pyLower (pyStrip message)) =
          some (Graph.graphGetReply b.graph deps.pipeline (pyStrip message) uid).1.reply := by
        rw [Bot.lookup_append, hnone]
        simp [List.lookup]
      have hsnd := Bot.botGetReply_hit
        { b with
            graph := (Graph.graphGetReply b.graph deps.pipeline (pyStrip message) uid).2
            cache := (if b.cache.length > 100 then [] else b.cache) ++
              [(uid ++ ":" ++ pyLower (pyStrip message),
                (Graph.graphGetReply b.graph deps.pipeline (pyStrip message) uid).1.reply)] }
        deps2 message uid h1 h2 h3
        (Graph.graphGetReply b.graph deps.pipeline (pyStrip message) uid).1.reply hl
      simp [hfst, hsnd]
  · intro h1 h2 h3 hm hlen
    simp [Bot.botGetReply_miss b deps message uid h1 h2 h3 hm, hlen]

/-- Witness inputs for C9: a fresh bot over an empty store, and one whose
cache holds 101 unrelated entries. -/
def witnessDeps : Bot.BotDeps :=
  ⟨⟨fun _ _ => "LLM", fun docs _ _ => docs, 1, "2025-01-01", 0⟩, fun _ => "TOOL"⟩

/-- A fresh bot state over empty stores. -/
def witnessBot : Bot.BotState :=
  ⟨⟨⟨10, []⟩, [], ⟨0, 0, [], [], [], [], []⟩, "default", none⟩, [], []⟩

/-- The fresh bot with a cache of 101 unrelated entries. -/
def witnessBotBig : Bot.BotState :=
  ⟨⟨⟨10, []⟩, [], ⟨0, 0, [], [], [], [], []⟩, "default", none⟩,
   List.replicate 101 ("k", "v"), []⟩

/-- Witness for C9: a repeated `"hello"` from user `"u"` returns the same
reply with the state unchanged and no pipeline run; `clear_conversation`
empties the cache; a miss with 101 cached entries leaves exactly the one
new entry. -/
theorem c9_reply_cache_witness :
    (Bot.botGetReply (Bot.botGetReply witnessBot witnessDeps "hello" "u").2.1
        witnessDeps "hello" "u").1.reply =
      (Bot.botGetReply witnessBot witnessDeps "hello" "u").1.reply ∧
    (Bot.botGetReply (Bot.botGetReply witnessBot witnessDeps "hello" "u").2.1
        witnessDeps "hello" "u").2.1 =
      (Bot.botGetReply witnessBot witnessDeps "hello" "u").2.1 ∧
    (Bot.botGetReply (Bot.botGetReply witnessBot witnessDeps "hello" "u").2.1
        witnessDeps "hello" "u").2.2.ranPipeline = false ∧
    (Bot.botClearConversation witnessBot "u").cache = [] ∧
    (Bot.botGetReply witnessBotBig witnessDeps "hello" "u").2.1.cache =
      [("u:hello", (Bot.botGetReply witnessBotBig witnessDeps "hello" "u").1.reply)] := by
  have h := c9_reply_cache witnessBot witnessDeps witnessDeps "hello" "u"
  have hbig := c9_reply_cache witnessBotBig witnessDeps witnessDeps "hello" "u"
  have ha := h.1 (by decide) (by decide) rfl
  have hc := hbig.2.2 (by decide) (by decide) rfl (by decide) (by decide)
  exact ⟨ha.1, ha.2.1, ha.2.2.2.2.1, h.2.1, hc⟩
